import Mathlib

/-!
Verification of the BLETEST device-configuration pipeline.

Shallow embedding of the Python sources under src/my-addon:
  profiles/zp2_profile.py  (endpoint codec: encode/decode helpers)
  gatt_profiles.py         (device-profile registry)
  profile_store.py         (durable profile store)
  run.py                   (scan cache, scanner, fetch/write/command pipeline)

Modelling conventions:
  Python str      -> Lean String (Unicode code points; upper/lower are ASCII)
  Python bytes    -> List Nat (each element < 256 by construction)
  Python int      -> Int (timestamps may be arbitrary JSON integers)
  BLE transport   -> an oracle (connect success, characteristic values) plus an
                     explicit trace of transport operations
  file writes     -> an explicit trace of file-system operations
  attribute error -> pipeline codec fields are Option-typed; a `none` field is
                     an attribute the object does not provide, and accessing it
                     raises (is caught by the surrounding try/except)
-/

-- ============================================================
-- Python string helpers
-- ============================================================

/-- Characters stripped by Python str.strip(): the Unicode whitespace set. -/
def isPySpace (c : Char) : Bool :=
  c = ' ' || c = '\t' || c = '\n' || c = '\r' ||
  c.toNat = 0x0b || c.toNat = 0x0c ||
  (0x1c ≤ c.toNat && c.toNat ≤ 0x1f) ||
  c.toNat = 0x85 || c.toNat = 0xa0 || c.toNat = 0x1680 ||
  (0x2000 ≤ c.toNat && c.toNat ≤ 0x200a) ||
  c.toNat = 0x2028 || c.toNat = 0x2029 || c.toNat = 0x202f ||
  c.toNat = 0x205f || c.toNat = 0x3000

/-- Python str.strip(): drop leading and trailing whitespace. -/
def pyStrip (s : String) : String :=
  String.mk (((s.data.dropWhile isPySpace).reverse.dropWhile isPySpace).reverse)

/-- Python str.upper() (ASCII case mapping; the names and commands handled by
this program are ASCII). -/
def pyUpper (s : String) : String := String.mk (s.data.map Char.toUpper)

/-- Python str.lower() (ASCII case mapping). -/
def pyLower (s : String) : String := String.mk (s.data.map Char.toLower)

def hasPrefixChars : List Char → List Char → Bool
  | [], _ => true
  | _ :: _, [] => false
  | n :: ns, h :: hs => n == h && hasPrefixChars ns hs

def hasInfixChars (needle : List Char) : List Char → Bool
  | [] => hasPrefixChars needle []
  | h :: hs => hasPrefixChars needle (h :: hs) || hasInfixChars needle hs

/-- Python `needle in hay` on strings: substring containment. -/
def pyContains (hay needle : String) : Bool := hasInfixChars needle.data hay.data

/-- Python `a or ""` for an optional string (None and "" are falsy). -/
def optStr (o : Option String) : String := o.getD ""

/-- Python truthiness of an optional string: None and "" are falsy. -/
def pyTruthyS : Option String → Bool
  | none => false
  | some s => s ≠ ""

-- ============================================================
-- UTF-8 encode / decode (Python str.encode / bytes.decode(errors="replace"))
-- ============================================================

/-- UTF-8 encoding of one Unicode code point. -/
def utf8Char (n : Nat) : List Nat :=
  if n < 0x80 then [n]
  else if n < 0x800 then [0xc0 + n / 0x40, 0x80 + n % 0x40]
  else if n < 0x10000 then
    [0xe0 + n / 0x1000, 0x80 + (n / 0x40) % 0x40, 0x80 + n % 0x40]
  else
    [0xf0 + n / 0x40000, 0x80 + (n / 0x1000) % 0x40,
     0x80 + (n / 0x40) % 0x40, 0x80 + n % 0x40]

def utf8EncodeChars : List Char → List Nat
  | [] => []
  | c :: cs => utf8Char c.toNat ++ utf8EncodeChars cs

/-- Python s.encode("utf-8"). -/
def utf8Encode (s : String) : List Nat := utf8EncodeChars s.data

/-- The U+FFFD replacement character. -/
def replChar : Char := Char.ofNat 0xfffd

/-- Is b a UTF-8 continuation byte. -/
def contByte (b : Nat) : Bool := 0x80 ≤ b && b ≤ 0xbf

/-- One decoding step at a time, fuelled by the input length; every recursive
call consumes at least one byte, mirroring CPython's errors="replace"
handler which emits U+FFFD and resynchronises. -/
def utf8DecodeGo : Nat → List Nat → List Char
  | 0, _ => []
  | _, [] => []
  | fuel + 1, b :: bs =>
    if b < 0x80 then Char.ofNat b :: utf8DecodeGo fuel bs
    else if 0xc2 ≤ b && b ≤ 0xdf then
      match bs with
      | b2 :: bs2 =>
        if contByte b2 then
          Char.ofNat ((b - 0xc0) * 0x40 + (b2 - 0x80)) :: utf8DecodeGo fuel bs2
        else replChar :: utf8DecodeGo fuel bs
      | [] => [replChar]
    else if 0xe0 ≤ b && b ≤ 0xef then
      match bs with
      | b2 :: bs2 =>
        if (if b = 0xe0 then 0xa0 ≤ b2 && b2 ≤ 0xbf
            else if b = 0xed then 0x80 ≤ b2 && b2 ≤ 0x9f
            else contByte b2) then
          match bs2 with
          | b3 :: bs3 =>
            if contByte b3 then
              Char.ofNat ((b - 0xe0) * 0x1000 + (b2 - 0x80) * 0x40 + (b3 - 0x80)) ::
                utf8DecodeGo fuel bs3
            else replChar :: utf8DecodeGo fuel bs2
          | [] => [replChar]
        else replChar :: utf8DecodeGo fuel bs
      | [] => [replChar]
    else if 0xf0 ≤ b && b ≤ 0xf4 then
      match bs with
      | b2 :: bs2 =>
        if (if b = 0xf0 then 0x90 ≤ b2 && b2 ≤ 0xbf
            else if b = 0xf4 then 0x80 ≤ b2 && b2 ≤ 0x8f
            else contByte b2) then
          match bs2 with
          | b3 :: bs3 =>
            if contByte b3 then
              match bs3 with
              | b4 :: bs4 =>
                if contByte b4 then
                  Char.ofNat ((b - 0xf0) * 0x40000 + (b2 - 0x80) * 0x1000 +
                    (b3 - 0x80) * 0x40 + (b4 - 0x80)) :: utf8DecodeGo fuel bs4
                else replChar :: utf8DecodeGo fuel bs3
              | [] => [replChar]
            else replChar :: utf8DecodeGo fuel bs2
          | [] => [replChar]
        else replChar :: utf8DecodeGo fuel bs
      | [] => [replChar]
    else replChar :: utf8DecodeGo fuel bs

/-- Python raw.decode("utf-8", errors="replace"). -/
def utf8DecodeReplace (bs : List Nat) : String :=
  String.mk (utf8DecodeGo (bs.length + 1) bs)

-- ============================================================
-- profiles/zp2_profile.py (the active, non-commented code)
-- ============================================================

/-- GattEndpoint from zp2_profile.py: immutable (service, characteristic) pair. -/
structure GattEndpoint where
  service : String
  char : String
deriving DecidableEq

namespace Zp2Profile

def key : String := "ZP2"

def EP_IP : GattEndpoint :=
  ⟨"0000120a-0000-1000-8000-00805f9b34fb", "0000121a-0000-1000-8000-00805f9b34fb"⟩

def EP_FW_VERSION : GattEndpoint :=
  ⟨"0000120a-0000-1000-8000-00805f9b34fb", "00002a26-0000-1000-8000-00805f9b34fb"⟩

def EP_MODEL : GattEndpoint :=
  ⟨"000012c0-0000-1000-8000-00805f9b34fb", "00000000-0000-1000-8000-00805f9b34fb"⟩

def EP_MODE : GattEndpoint :=
  ⟨"000012aa-0000-1000-8000-00805f9b34fb", "000012a5-0000-1000-8000-00805f9b34fb"⟩

def EP_MQTT : GattEndpoint :=
  ⟨"000012aa-0000-1000-8000-00805f9b34fb", "000012a6-0000-1000-8000-00805f9b34fb"⟩

def EP_WIFI_COMBO : GattEndpoint :=
  ⟨"000012aa-0000-1000-8000-00805f9b34fb", "000012a1-0000-1000-8000-00805f9b34fb"⟩

def EP_COMMAND : GattEndpoint :=
  ⟨"000012aa-0000-1000-8000-00805f9b34fb", "000012a4-0000-1000-8000-00805f9b34fb"⟩

/-- Zp2Profile.decode_text: utf-8 decode with replacement, drop NUL, strip. -/
def decode_text (raw : List Nat) : String :=
  if raw = [] then ""
  else pyStrip (String.mk ((utf8DecodeReplace raw).data.filter (fun c => c.toNat != 0)))

/-- Zp2Profile.decode_mode: first byte b"0" is AWS, b"1" is LOCAL, otherwise
fall back to a plain text decode (+ strip); never fails. -/
def decode_mode (raw : List Nat) : String :=
  let b0 := raw.take 1
  if b0 = [48] then "AWS"
  else if b0 = [49] then "LOCAL"
  else pyStrip (utf8DecodeReplace raw)

/-- Zp2Profile.encode_mode: case-insensitive "AWS" maps to "0", anything else
to "1". -/
def encode_mode (mode : String) : String :=
  if pyUpper (pyStrip mode) = "AWS" then "0" else "1"

/-- Zp2Profile.encode_mqtt: empty stays empty; a value containing "/" passes
through; otherwise default port 1883 is added when no ":" is present, then the
default topic suffix. -/
def encode_mqtt (profile_mqtt : String) : String :=
  let s := pyStrip profile_mqtt
  if s = "" then ""
  else if pyContains s "/" then s
  else (if pyContains s ":" then s else s ++ ":1883") ++ "/test/test"

/-- Zp2Profile.encode_wifi_combo: ssid bytes, one 0x00, password bytes. -/
def encode_wifi_combo (ssid password : String) : List Nat :=
  utf8Encode ssid ++ [0] ++ utf8Encode password

/-- Zp2Profile.encode_command: identity pass-through of the trimmed command. -/
def encode_command (cmd : String) : String := pyStrip cmd

end Zp2Profile

-- Sanity checks of the codec against spec section 8 examples.
example : Zp2Profile.encode_mqtt "10.10.10.10" = "10.10.10.10:1883/test/test" := by decide
example : Zp2Profile.encode_mqtt "10.10.10.10:8883" = "10.10.10.10:8883/test/test" := by decide
example : Zp2Profile.encode_mqtt "10.10.10.10/a/b" = "10.10.10.10/a/b" := by decide
example : Zp2Profile.encode_mqtt "" = "" := by decide
example : Zp2Profile.encode_mode "AWS" = "0" := by decide
example : Zp2Profile.encode_mode "local" = "1" := by decide
example : Zp2Profile.decode_mode [48] = "AWS" := by decide
example : Zp2Profile.decode_mode [49] = "LOCAL" := by decide
example : utf8Encode "0" = [48] := by decide
example : Zp2Profile.decode_text [65, 0, 66, 32] = "AB" := by decide

-- ============================================================
-- The module namespace of the active zp2_profile.py, and the attributes the
-- run.py pipeline expects of the codec object (for claim C1)
-- ============================================================

/-- Top-level names bound by executing the active (non-commented) code of
profiles/zp2_profile.py.  The line binding PROFILE is commented out. -/
def zp2ModuleTopLevelNames : List String := ["GattEndpoint", "Zp2Profile"]

/-- Members provided by the active Zp2Profile dataclass. -/
def zp2ProfileMembers : List String :=
  ["key", "EP_IP", "EP_FW_VERSION", "EP_MODEL", "EP_MODE", "EP_MQTT",
   "EP_WIFI_COMBO", "EP_COMMAND", "decode_text", "decode_ip",
   "decode_fw_version", "decode_model", "decode_mqtt", "decode_mode",
   "encode_mode", "encode_mqtt", "encode_wifi_combo", "encode_command"]

/-- Codec attributes accessed by run.py's fetch-details, write-profile and
send-command pipelines. -/
def pipelineCodecAccesses : List String :=
  ["SVC_SYS_INFO", "CH_IP", "SVC_WIFI_CFG", "CH_WIFI_COMBO", "CH_MODE",
   "CH_MQTT", "SVC_MODEL", "CH_MODEL", "CH_FW", "build_mqtt_text",
   "CH_COMMAND"]

-- ============================================================
-- The codec object as seen by the run.py pipeline
-- ============================================================

/-- The codec interface the pipeline reads through Python attribute access.
Fields are Option-typed: a `none` field is an attribute the object does not
provide, so accessing it raises AttributeError. -/
structure Codec where
  key : String
  SVC_SYS_INFO : Option String := none
  SVC_WIFI_CFG : Option String := none
  SVC_MODEL : Option String := none
  CH_IP : Option String := none
  CH_FW : Option String := none
  CH_MODE : Option String := none
  CH_MQTT : Option String := none
  CH_WIFI_COMBO : Option String := none
  CH_COMMAND : Option String := none
  CH_MODEL : Option String := none
  build_mqtt_text : Option (String → String) := none

/-- The attribute surface of the active Zp2Profile codec: it exposes only
key, EP_* endpoints and encode_*/decode_* functions, none of the SVC_*, CH_*
or build_mqtt_text attributes the pipeline reads. -/
def zp2ProfileActive : Codec := { key := Zp2Profile.key }

/-- Modelled from the spec: the codec object the registry was meant to
export.  The active zp2_profile.py never binds PROFILE and its Zp2Profile
class has no SVC_*, CH_* or build_mqtt_text members; this definition fills
those in from spec section 4.1 / 6 (the endpoint table, whose UUIDs also
appear in the active EP_* constants) with the mqtt builder behaviour of
spec section 4.1 (identical to the active encode_mqtt).  Used to settle
control-flow claims that presuppose a resolvable codec. -/
def zp2CodecSpec : Codec :=
  { key := Zp2Profile.key
    SVC_SYS_INFO := some Zp2Profile.EP_IP.service
    SVC_WIFI_CFG := some Zp2Profile.EP_MODE.service
    SVC_MODEL := some Zp2Profile.EP_MODEL.service
    CH_IP := some Zp2Profile.EP_IP.char
    CH_FW := some Zp2Profile.EP_FW_VERSION.char
    CH_MODE := some Zp2Profile.EP_MODE.char
    CH_MQTT := some Zp2Profile.EP_MQTT.char
    CH_WIFI_COMBO := some Zp2Profile.EP_WIFI_COMBO.char
    CH_COMMAND := some Zp2Profile.EP_COMMAND.char
    CH_MODEL := some Zp2Profile.EP_MODEL.char
    build_mqtt_text := some Zp2Profile.encode_mqtt }

-- ============================================================
-- gatt_profiles.py: the device-profile registry
-- ============================================================

/-- get_profile_by_adv_name from gatt_profiles.py, parameterised by the codec
value the module-level import would bind: normalise the advertised name,
empty yields none, a name containing "ZP2" yields the ZP2 codec. -/
def get_profile_by_adv_name (zp2 : Codec) (name : Option String) : Option Codec :=
  let n := pyUpper (pyStrip (optStr name))
  if n = "" then none
  else if pyContains n "ZP2" then some zp2
  else none

-- ============================================================
-- run.py: scan helpers and do_scan
-- ============================================================

/-- The props dictionary exposed by a bleak device (run.py get_props). -/
structure Props where
  Name : Option String := none
  Alias : Option String := none
  RSSI : Option Int := none
  AddressType : Option String := none
  ManufacturerData : List (Nat × List Nat) := []
deriving DecidableEq

/-- A discovered bleak device: address, name, and optional details.props. -/
structure BleDevice where
  address : Option String := none
  name : Option String := none
  details : Option Props := none
deriving DecidableEq

/-- run.py get_props: details.props when present, else an empty dict. -/
def get_props (d : BleDevice) : Props := d.details.getD {}

/-- run.py get_name: prefer device.name, else props Name, else Alias
(Python `or` skips None and empty strings). -/
def get_name (d : BleDevice) (props : Props) : Option String :=
  if pyTruthyS d.name then d.name
  else if pyTruthyS props.Name then props.Name
  else props.Alias

/-- run.py get_rssi. -/
def get_rssi (props : Props) : Option Int := props.RSSI

/-- run.py is_zp2_candidate: legacy substring heuristic over the name and the
props Alias. -/
def is_zp2_candidate (name : Option String) (props : Props) : Bool :=
  (pyTruthyS name && pyContains (pyUpper (optStr name)) "ZP2") ||
  (match props.Alias with
   | some a => pyContains (pyUpper a) "ZP2"
   | none => false)

def hexDigit (n : Nat) : Char :=
  if n < 10 then Char.ofNat (48 + n) else Char.ofNat (87 + n)

def bytesHex (bs : List Nat) : String :=
  String.mk (bs.foldr (fun b acc => hexDigit (b / 16 % 16) :: hexDigit (b % 16) :: acc) [])

/-- One entry of the scan result list built by do_scan. -/
structure ScanItem where
  address : Option String
  name : Option String
  rssi : Option Int
  address_type : Option String
  manufacturer_data : List (String × String)
  is_zp2 : Bool
  model_key : String
  is_supported : Bool
deriving DecidableEq

/-- The per-device classification step of run.py do_scan. -/
def scanItemOf (d : BleDevice) : ScanItem :=
  let props := get_props d
  let name := get_name d props
  let rssi := get_rssi props
  let profile := get_profile_by_adv_name zp2ProfileActive name
  { address := d.address
    name := name
    rssi := rssi
    address_type := props.AddressType
    manufacturer_data := props.ManufacturerData.map (fun kv => (toString kv.1, bytesHex kv.2))
    is_zp2 := is_zp2_candidate name props
    model_key := match profile with | some p => p.key | none => ""
    is_supported := profile.isSome }

/-- run.py rssi_sort: the rssi when it is an int, else -999. -/
def rssi_sort (v : ScanItem) : Int :=
  match v.rssi with
  | some r => r
  | none => -999

/-- The sort key comparison of do_scan: key(x) = (not is_zp2, -rssi_sort x),
compared lexicographically. -/
def scanSortLe (a b : ScanItem) : Bool :=
  let ka : Nat := if a.is_zp2 then 0 else 1
  let kb : Nat := if b.is_zp2 then 0 else 1
  if ka < kb then true
  else if ka = kb then decide (-(rssi_sort a) ≤ -(rssi_sort b))
  else false

/-- Stable insertion of one element: x goes after every earlier element whose
key is less than or equal, matching the stability of Python list.sort. -/
def stableInsert (le : α → α → Bool) (x : α) : List α → List α
  | [] => [x]
  | y :: ys => if le y x then y :: stableInsert le x ys else x :: y :: ys

/-- Stable sort (insertion sort).  Python's list.sort is a stable sort by the
same total preorder, and a stable sort's output is unique, so this computes
the same list. -/
def stableSort (le : α → α → Bool) : List α → List α
  | [] => []
  | x :: xs => stableInsert le x (stableSort le xs)

/-- run.py do_scan: classify each discovered device, then sort by
(not is_zp2, -rssi_sort). -/
def do_scan (devices : List BleDevice) : List ScanItem :=
  stableSort scanSortLe (devices.map scanItemOf)

-- Sanity checks: registry examples from spec section 8.
example : (get_profile_by_adv_name zp2ProfileActive (some "MyZP2Device-1234")).isSome = true := by decide
example : (get_profile_by_adv_name zp2ProfileActive (some "")).isSome = false := by decide
example : (get_profile_by_adv_name zp2ProfileActive none).isSome = false := by decide
example : (get_profile_by_adv_name zp2ProfileActive (some "Other")).isSome = false := by decide

-- ============================================================
-- File persistence (profile_store._atomic_write_json vs run.save_json)
-- ============================================================

/-- A file-system effect, as performed by the two JSON writers. -/
inductive FsOp where
  | writeFile (path : String)
  | replaceFile (src dst : String)
deriving DecidableEq

def PROFILE_FILE : String := "/data/profiles.json"

def CACHE_PATH : String := "/data/scan_cache.json"

/-- profile_store._atomic_write_json: write to path.tmp, then os.replace it
over path. -/
def atomic_write_json_ops (path : String) : List FsOp :=
  [FsOp.writeFile (path ++ ".tmp"), FsOp.replaceFile (path ++ ".tmp") path]

/-- run.py save_json: a single direct open(path, "w") write in place. -/
def save_json_ops (path : String) : List FsOp :=
  [FsOp.writeFile path]

/-- File ops of profile_store.save_profiles (it calls _atomic_write_json). -/
def save_profiles_ops : List FsOp := atomic_write_json_ops PROFILE_FILE

/-- File ops with which api_scan persists the sweep result (it calls
save_json on the cache path). -/
def api_scan_persist_ops : List FsOp := save_json_ops CACHE_PATH

/-- The write-to-temporary-then-atomic-rename discipline for destination dst:
dst itself is never the target of a direct write, and dst becomes visible
through a rename from a distinct temporary. -/
def atomicDiscipline (ops : List FsOp) (dst : String) : Bool :=
  (ops.all fun op =>
    match op with
    | FsOp.writeFile p => p != dst
    | FsOp.replaceFile _ _ => true) &&
  (ops.any fun op =>
    match op with
    | FsOp.writeFile _ => false
    | FsOp.replaceFile src d => d == dst && src != dst)

-- ============================================================
-- run.py api_devices: freshness-checked cache read
-- ============================================================

def SCAN_CACHE_TTL_SEC : Int := 300

/-- Persisted scan-cache document (the timeout_sec field, a carried constant,
is elided). -/
structure CacheDoc where
  ts : Int := 0
  results : List ScanItem := []
deriving DecidableEq

/-- Response of GET /api/devices. -/
structure DevicesResp where
  ok : Bool
  age_sec : Int
  ttl_sec : Int
  expired : Bool
  devices : List ScanItem
deriving DecidableEq

/-- run.py api_devices: given the loaded cache document (a missing or corrupt
file loads as ts 0, results []) and the current time, either clear and report
expired, or return the optionally filtered entries with their age.  The
second component is the list of cache-file writes performed. -/
def api_devices (cache : CacheDoc) (now : Int) (only_zp2 : Bool) :
    DevicesResp × List (String × CacheDoc) :=
  let ts := cache.ts
  let age := now - ts
  if ts = 0 ∨ age > SCAN_CACHE_TTL_SEC then
    ({ ok := true, age_sec := age, ttl_sec := SCAN_CACHE_TTL_SEC,
       expired := true, devices := [] },
     [(CACHE_PATH, { ts := 0, results := [] })])
  else
    ({ ok := true, age_sec := age, ttl_sec := SCAN_CACHE_TTL_SEC,
       expired := false,
       devices := if only_zp2 then cache.results.filter (fun r => r.is_zp2) else cache.results },
     [])

-- ============================================================
-- profile_store.py: document model and CRUD
-- ============================================================

/-- A normalized profile record (canonical fields of profile_store). -/
structure StoreProfile where
  id : String := ""
  name : String := ""
  mode : String := "LOCAL"
  ssid : String := ""
  password : String := ""
  mqtt : String := ""
  updated_at : Int := 0
deriving DecidableEq

/-- The profiles document. -/
structure Doc where
  schema : Int := 1
  current_profile_id : String := ""
  profiles : List StoreProfile := []
deriving DecidableEq

/-- profile_store._default_doc. -/
def default_doc : Doc := {}

/-- The profiles field of a parsed JSON document: a list, or some non-list
value. -/
inductive ProfilesField where
  | isList (ps : List StoreProfile)
  | notList
deriving DecidableEq

/-- What load_profiles finds on disk: no file, unreadable/corrupt content, a
non-dict root, or a dict with optional fields. -/
inductive LoadInput where
  | missing
  | unreadable
  | nonDict
  | dict (schema : Option Int) (current : Option String) (profiles : Option ProfilesField)
deriving DecidableEq

/-- profile_store.load_profiles: rebuild a default document when the file is
missing or unreadable (persisting it atomically), coerce a non-dict root to
the default, backfill missing fields, and coerce a non-list profiles field to
[].  Present fields are returned as stored, without cross-field validation.
The second component is the list of file operations performed. -/
def load_profiles : LoadInput → Doc × List FsOp
  | LoadInput.missing => (default_doc, atomic_write_json_ops PROFILE_FILE)
  | LoadInput.unreadable => (default_doc, atomic_write_json_ops PROFILE_FILE)
  | LoadInput.nonDict => (default_doc, [])
  | LoadInput.dict sch cur profs =>
    ({ schema := sch.getD 1
       current_profile_id := cur.getD ""
       profiles := match profs with
         | some (ProfilesField.isList ps) => ps
         | some ProfilesField.notList => []
         | none => [] },
     [])

/-- Raw profile dict handed to normalize_profile (fields may be absent). -/
structure RawProfile where
  id : Option String := none
  name : Option String := none
  mode : Option String := none
  ssid : Option String := none
  password : Option String := none
  mqtt : Option String := none
  updated_at : Option Int := none
deriving DecidableEq

/-- Python `p.get(k, d) or d` for a string field: absent, None and "" all
fall back to d. -/
def getOrDefault (o : Option String) (d : String) : String :=
  match o with
  | none => d
  | some "" => d
  | some v => v

/-- profile_store.normalize_profile: trim strings, default and clamp mode,
stamp updated_at with now when absent (or falsy 0). -/
def normalize_profile (now : Int) (p : RawProfile) : StoreProfile :=
  let mode0 := pyUpper (pyStrip (getOrDefault p.mode "LOCAL"))
  { id := pyStrip (optStr p.id)
    name := pyStrip (optStr p.name)
    mode := if mode0 = "LOCAL" ∨ mode0 = "AWS" then mode0 else "LOCAL"
    ssid := pyStrip (optStr p.ssid)
    password := pyStrip (optStr p.password)
    mqtt := pyStrip (optStr p.mqtt)
    updated_at := match p.updated_at with
      | some t => if t = 0 then now else t
      | none => now }

/-- Replace the first profile whose id matches, as the index-based update in
upsert_profile does. -/
def replaceFirstById (pid : String) (p : StoreProfile) : List StoreProfile → List StoreProfile
  | [] => []
  | x :: xs => if x.id = pid then p :: xs else x :: replaceFirstById pid p xs

/-- profile_store.upsert_profile: normalize, resolve the effective id
(overwrite_id wins when truthy), reject an empty id, replace-or-append by id,
stamp a fresh updated_at, and point current_profile_id at this id. -/
def upsert_profile (now : Int) (doc : Doc) (profile : RawProfile)
    (overwrite_id : Option String) : (Bool × String) × Doc :=
  let p := normalize_profile now profile
  let pid := pyStrip (getOrDefault overwrite_id p.id)
  if pid = "" then ((false, "Profile ID 不能為空"), doc)
  else
    let p2 := { p with id := pid, updated_at := now }
    let profiles :=
      if doc.profiles.any (fun x => x.id == pid) then
        replaceFirstById pid p2 doc.profiles
      else doc.profiles ++ [p2]
    ((true, pid), { doc with profiles := profiles, current_profile_id := pid })

/-- profile_store.delete_profile: remove by id; clear the selection when it
pointed at the removed id; report whether anything was removed. -/
def delete_profile (doc : Doc) (pid0 : String) : Bool × Doc :=
  let pid := pyStrip pid0
  if pid = "" then (false, doc)
  else
    let profs := doc.profiles.filter (fun p => !(p.id == pid))
    let cur := if doc.current_profile_id = pid then "" else doc.current_profile_id
    (decide (profs.length ≠ doc.profiles.length),
     { doc with profiles := profs, current_profile_id := cur })

/-- profile_store.set_current_profile: empty id clears the selection;
a non-empty id must reference an existing profile, else fail without
mutating. -/
def set_current_profile (doc : Doc) (pid0 : String) : (Bool × String) × Doc :=
  let pid := pyStrip pid0
  if pid = "" then ((true, ""), { doc with current_profile_id := "" })
  else if doc.profiles.any (fun p => p.id == pid) then
    ((true, pid), { doc with current_profile_id := pid })
  else ((false, "Profile 不存在"), doc)

/-- The document invariant of claim C5: the selection is empty or names a
profile in the list. -/
def invariantB (d : Doc) : Bool :=
  d.current_profile_id == "" || d.profiles.any (fun p => p.id == d.current_profile_id)

-- ============================================================
-- run.py: transport model and pipeline helpers
-- ============================================================

/-- One transport operation performed by a pipeline, in order. -/
inductive BleOp where
  | connect (addr : String)
  | sleepMs (ms : Nat)
  | readChar (svc ch : String)
  | writeChar (svc ch : String) (data : List Nat)
  | disconnect (addr : String)
deriving DecidableEq

/-- Does the operation perform one of the specified endpoint reads/writes. -/
def BleOp.isGattRW : BleOp → Bool
  | BleOp.readChar _ _ => true
  | BleOp.writeChar _ _ _ => true
  | _ => false

def BleOp.isConnect : BleOp → Bool
  | BleOp.connect _ => true
  | _ => false

/-- The transport oracle: whether connecting to an address succeeds, and the
value a characteristic read returns (reads and writes on a connected, resolved
endpoint are modelled as succeeding). -/
structure BleEnv where
  connectOk : String → Bool
  readVal : String → String → List Nat

/-- run.py find_adv_name_in_cache: the name last seen for the address in the
persisted scan cache, or "" on a miss.  The cache is modelled by its
(address, name) pairs. -/
def find_adv_name_in_cache (cache : List (String × String)) (address : String) : String :=
  match cache.find? (fun e => e.1 == address) with
  | some e => e.2
  | none => ""

/-- run.py _bytes_to_text: utf-8 decode with replacement, drop NUL, strip
(textually the same body as Zp2Profile.decode_text). -/
def _bytes_to_text (b : List Nat) : String :=
  if b = [] then ""
  else pyStrip (String.mk ((utf8DecodeReplace b).data.filter (fun c => c.toNat != 0)))

/-- run.py _encode_text: UTF-8 bytes of the string. -/
def _encode_text (s : String) : List Nat := utf8Encode s

/-- The inline network-mode decoding of api_fetch_details: a leading byte
0x00/0x01 maps to AWS/LOCAL; otherwise the whole decoded text is compared to
"0"/"1" and returned verbatim when neither matches. -/
def inline_mode_decode (mode_b : List Nat) : String :=
  if mode_b = [] then ""
  else if mode_b.take 1 = [0] ∨ mode_b.take 1 = [1] then
    if mode_b.headD 0 = 0 then "AWS" else "LOCAL"
  else
    let t := _bytes_to_text mode_b
    if t = "0" then "AWS" else if t = "1" then "LOCAL" else t

-- ============================================================
-- run.py api_fetch_details
-- ============================================================

/-- One per-target record of /api/fetch_details. -/
structure FetchItem where
  address : String
  ok : Bool
  error : Option String
  mode : String := ""
  ssid : String := ""
  mqtt : String := ""
  ip : String := ""
  model : String := ""
  fw_version : String := ""
deriving DecidableEq

/-- The six reads of api_fetch_details in source order, each addressed through
two codec attributes (service, characteristic); a missing attribute raises
before the read happens.  Returns the read values or the error, plus the
reads actually performed. -/
def readSeq (env : BleEnv) :
    List (Option String × String × Option String × String) →
    Except String (List (List Nat)) × List BleOp
  | [] => (Except.ok [], [])
  | (svcAttr, svcName, chAttr, chName) :: rest =>
    match svcAttr with
    | none => (Except.error ("AttributeError: " ++ svcName), [])
    | some svc =>
      match chAttr with
      | none => (Except.error ("AttributeError: " ++ chName), [])
      | some ch =>
        let raw := env.readVal svc ch
        match readSeq env rest with
        | (Except.ok vs, tr) => (Except.ok (raw :: vs), BleOp.readChar svc ch :: tr)
        | (Except.error e, tr) => (Except.error e, BleOp.readChar svc ch :: tr)

/-- The per-target body of api_fetch_details: resolve the codec from the
cached advertised name, connect, settle, perform the six reads, decode, and
disconnect on every exit path. -/
def fetchOne (zp2 : Codec) (cache : List (String × String)) (env : BleEnv)
    (address : String) : FetchItem × List BleOp :=
  let base : FetchItem := { address := address, ok := false, error := none }
  let adv_name := find_adv_name_in_cache cache address
  match get_profile_by_adv_name zp2 (some adv_name) with
  | none =>
    ({ base with error := some ("unsupported device by adv name: " ++ adv_name) }, [])
  | some profile =>
    if env.connectOk address then
      let reads := readSeq env
        [(profile.SVC_SYS_INFO, "SVC_SYS_INFO", profile.CH_IP, "CH_IP"),
         (profile.SVC_WIFI_CFG, "SVC_WIFI_CFG", profile.CH_WIFI_COMBO, "CH_WIFI_COMBO"),
         (profile.SVC_WIFI_CFG, "SVC_WIFI_CFG", profile.CH_MODE, "CH_MODE"),
         (profile.SVC_WIFI_CFG, "SVC_WIFI_CFG", profile.CH_MQTT, "CH_MQTT"),
         (profile.SVC_MODEL, "SVC_MODEL", profile.CH_MODEL, "CH_MODEL"),
         (profile.SVC_SYS_INFO, "SVC_SYS_INFO", profile.CH_FW, "CH_FW")]
      let tr := BleOp.connect address :: BleOp.sleepMs 200 :: reads.2 ++ [BleOp.disconnect address]
      match reads.1 with
      | Except.ok [ip_b, ssid_b, mode_b, mqtt_b, model_b, fw_b] =>
        ({ base with
            ok := true
            mode := inline_mode_decode mode_b
            ssid := _bytes_to_text ssid_b
            mqtt := _bytes_to_text mqtt_b
            ip := _bytes_to_text ip_b
            model := _bytes_to_text model_b
            fw_version := _bytes_to_text fw_b }, tr)
      | Except.ok _ => ({ base with error := some "impossible arity" }, tr)
      | Except.error e => ({ base with error := some e }, tr)
    else
      ({ base with error := some "connect failed" }, [BleOp.connect address])

/-- Response of /api/fetch_details. -/
structure FetchResp where
  ok : Bool
  results : List FetchItem
deriving DecidableEq

/-- run.py api_fetch_details: sequential per-target processing; per-target
failures never abort the batch. -/
def api_fetch_details (zp2 : Codec) (cache : List (String × String)) (env : BleEnv)
    (targets : List String) : FetchResp × List BleOp :=
  let step := targets.map (fetchOne zp2 cache env)
  ({ ok := true, results := step.map Prod.fst },
   (step.map Prod.snd).flatten)

-- ============================================================
-- run.py api_write_profile
-- ============================================================

/-- One per-target record of /api/write_profile. -/
structure WriteItem where
  address : String
  ok : Bool
  error : Option String
deriving DecidableEq

/-- The value api_write_profile returns: a top-level error dict, or the
success dict carrying the per-target results and the last-computed payload
texts. -/
inductive WriteResp where
  | errResp (msg : String)
  | okResp (profile_id mode_text mqtt_text : String) (results : List WriteItem)
deriving DecidableEq

/-- How api_write_profile terminates: with a returned response, or with an
unhandled UnboundLocalError when the final return statement reads a local
variable no loop iteration assigned. -/
inductive WriteOutcome where
  | resp (r : WriteResp)
  | nameError (v : String)
deriving DecidableEq

/-- The per-target loop of api_write_profile.  locals? carries the
(mode_text, mqtt_text) local variables, assigned only when an iteration
reaches the payload computation; the blank-MQTT check runs after it and
returns from the whole function.  acc accumulates per-target records in
reverse. -/
def writeLoop (zp2 : Codec) (cache : List (String × String)) (env : BleEnv)
    (mode ssid password mqtt_in pid : String) :
    List String → List WriteItem → Option (String × String) → WriteOutcome × List BleOp
  | [], acc, locals? =>
    match locals? with
    | some (mt, qt) => (WriteOutcome.resp (WriteResp.okResp pid mt qt acc.reverse), [])
    | none => (WriteOutcome.nameError "mode_text", [])
  | address :: rest, acc, locals? =>
    let adv_name := find_adv_name_in_cache cache address
    match get_profile_by_adv_name zp2 (some adv_name) with
    | none =>
      let item : WriteItem :=
        { address := address, ok := false,
          error := some ("unsupported device by adv name: " ++ adv_name) }
      writeLoop zp2 cache env mode ssid password mqtt_in pid rest (item :: acc) locals?
    | some gatt_profile =>
      match gatt_profile.build_mqtt_text with
      | none =>
        let item : WriteItem :=
          { address := address, ok := false,
            error := some "AttributeError: build_mqtt_text" }
        writeLoop zp2 cache env mode ssid password mqtt_in pid rest (item :: acc) locals?
      | some build =>
        let mqtt_text := build mqtt_in
        let mode_text := if mode = "AWS" then "0" else "1"
        let wifi_payload := _encode_text ssid ++ [0] ++ _encode_text password
        let locals2 := some (mode_text, mqtt_text)
        if mqtt_text = "" then
          (WriteOutcome.resp (WriteResp.errResp "profile.mqtt is empty"), [])
        else
          if env.connectOk address then
            match gatt_profile.SVC_WIFI_CFG with
            | none =>
              let item : WriteItem :=
                { address := address, ok := false,
                  error := some "AttributeError: SVC_WIFI_CFG" }
              let (out, tr) :=
                writeLoop zp2 cache env mode ssid password mqtt_in pid rest (item :: acc) locals2
              (out, BleOp.connect address :: BleOp.sleepMs 200 ::
                BleOp.disconnect address :: tr)
            | some svc =>
              match gatt_profile.CH_MODE, gatt_profile.CH_MQTT, gatt_profile.CH_WIFI_COMBO with
              | some chMode, some chMqtt, some chWifi =>
                let item : WriteItem := { address := address, ok := true, error := none }
                let (out, tr) :=
                  writeLoop zp2 cache env mode ssid password mqtt_in pid rest (item :: acc) locals2
                (out, BleOp.connect address :: BleOp.sleepMs 200 ::
                  BleOp.writeChar svc chMode (_encode_text mode_text) :: BleOp.sleepMs 150 ::
                  BleOp.writeChar svc chMqtt (_encode_text mqtt_text) :: BleOp.sleepMs 150 ::
                  BleOp.writeChar svc chWifi wifi_payload :: BleOp.sleepMs 150 ::
                  BleOp.disconnect address :: tr)
              | _, _, _ =>
                let item : WriteItem :=
                  { address := address, ok := false,
                    error := some "AttributeError: characteristic" }
                let (out, tr) :=
                  writeLoop zp2 cache env mode ssid password mqtt_in pid rest (item :: acc) locals2
                (out, BleOp.connect address :: BleOp.sleepMs 200 ::
                  BleOp.disconnect address :: tr)
          else
            let item : WriteItem :=
              { address := address, ok := false, error := some "connect failed" }
            let (out, tr) :=
              writeLoop zp2 cache env mode ssid password mqtt_in pid rest (item :: acc) locals2
            (out, BleOp.connect address :: tr)

/-- run.py api_write_profile: validate targets and profile_id, load the user
profile from the document, then run the per-target loop. -/
def api_write_profile (zp2 : Codec) (cache : List (String × String)) (env : BleEnv)
    (doc : Doc) (targets : List String) (profile_id : String) :
    WriteOutcome × List BleOp :=
  let pid := pyStrip profile_id
  if targets = [] then (WriteOutcome.resp (WriteResp.errResp "targets is empty"), [])
  else if pid = "" then (WriteOutcome.resp (WriteResp.errResp "profile_id is empty"), [])
  else
    match doc.profiles.find? (fun p => p.id == pid) with
    | none =>
      (WriteOutcome.resp (WriteResp.errResp ("profile not found: " ++ pid)), [])
    | some user_profile =>
      let mode := pyUpper (pyStrip user_profile.mode)
      let ssid := pyStrip user_profile.ssid
      let password := pyStrip user_profile.password
      let mqtt_in := pyStrip user_profile.mqtt
      writeLoop zp2 cache env mode ssid password mqtt_in pid targets [] none

-- ============================================================
-- run.py api_send_command
-- ============================================================

/-- One per-target record of /api/send_command. -/
structure CmdItem where
  address : String
  ok : Bool
  error : Option String
deriving DecidableEq

/-- Response of /api/send_command. -/
inductive CmdResp where
  | errResp (msg : String)
  | okResp (command : String) (results : List CmdItem)
deriving DecidableEq

/-- The per-target body of api_send_command: connect and settle first, then
resolve the codec from the cached name, then write the precomputed payload to
the command endpoint. -/
def sendOne (zp2 : Codec) (cache : List (String × String)) (env : BleEnv)
    (payload : List Nat) (address : String) : CmdItem × List BleOp :=
  if env.connectOk address then
    let adv_name := find_adv_name_in_cache cache address
    match get_profile_by_adv_name zp2 (some adv_name) with
    | none =>
      ({ address := address, ok := false,
         error := some ("unsupported device by adv name: " ++ adv_name) },
       [BleOp.connect address, BleOp.sleepMs 200, BleOp.disconnect address])
    | some profile =>
      match profile.SVC_WIFI_CFG with
      | none =>
        ({ address := address, ok := false,
           error := some "AttributeError: SVC_WIFI_CFG" },
         [BleOp.connect address, BleOp.sleepMs 200, BleOp.disconnect address])
      | some svc =>
        match profile.CH_COMMAND with
        | none =>
          ({ address := address, ok := false,
             error := some "AttributeError: CH_COMMAND" },
           [BleOp.connect address, BleOp.sleepMs 200, BleOp.disconnect address])
        | some ch =>
          ({ address := address, ok := true, error := none },
           [BleOp.connect address, BleOp.sleepMs 200,
            BleOp.writeChar svc ch payload, BleOp.disconnect address])
  else
    ({ address := address, ok := false, error := some "connect failed" },
     [BleOp.connect address])

/-- run.py api_send_command: trim and lower-case the command, reject anything
but "reset"/"reboot" before touching any target, precompute the payload once,
then process targets sequentially. -/
def api_send_command (zp2 : Codec) (cache : List (String × String)) (env : BleEnv)
    (targets : List String) (command : String) : CmdResp × List BleOp :=
  let cmd := pyLower (pyStrip command)
  if cmd ≠ "reset" ∧ cmd ≠ "reboot" then (CmdResp.errResp "invalid command", [])
  else if targets = [] then (CmdResp.errResp "targets is empty", [])
  else
    let payload := utf8Encode cmd
    let step := targets.map (sendOne zp2 cache env payload)
    (CmdResp.okResp cmd (step.map Prod.fst), (step.map Prod.snd).flatten)

-- ============================================================
-- Shared helper lemmas
-- ============================================================

/-- The registry only ever returns the codec it was handed. -/
theorem get_profile_eq {z p : Codec} {n : Option String}
    (h : get_profile_by_adv_name z n = some p) : p = z := by
  unfold get_profile_by_adv_name at h
  by_cases h1 : pyUpper (pyStrip (optStr n)) = ""
  · simp [h1] at h
  · by_cases h2 : pyContains (pyUpper (pyStrip (optStr n))) "ZP2" = true
    · simp [h1, h2] at h
      exact h.symm
    · simp [h1, h2] at h

/-- A zero byte never occurs in the UTF-8 encoding of a nonzero code point. -/
theorem zero_not_mem_utf8Char {n : Nat} (h : n ≠ 0) : 0 ∉ utf8Char n := by
  unfold utf8Char
  split_ifs with h1 h2 h3 <;> simp <;> omega

/-- NUL-free text encodes to zero-free bytes. -/
theorem count_zero_utf8EncodeChars (cs : List Char) (h : ∀ c ∈ cs, c.toNat ≠ 0) :
    List.count 0 (utf8EncodeChars cs) = 0 := by
  induction cs with
  | nil => rfl
  | cons c cs ih =>
    rw [utf8EncodeChars, List.count_append]
    have h1 : List.count 0 (utf8Char c.toNat) = 0 :=
      List.count_eq_zero.mpr (zero_not_mem_utf8Char (h c (List.mem_cons_self c cs)))
    have h2 := ih (fun x hx => h x (List.mem_cons_of_mem c hx))
    omega

-- A concrete transport oracle used by witnesses: every connect succeeds and
-- every read returns no bytes.
def envAll : BleEnv := { connectOk := fun _ => true, readVal := fun _ _ => [] }

-- ============================================================
-- C3: persistence discipline of the two core-owned files
-- ============================================================

/-- C3 counterexample: the claim states that both the profile document file
and the scan-cache file are written via temp-file-then-atomic-rename; the
scan-cache file persisted by api_scan is written directly in place by
save_json, so the conjunction is false. -/
theorem c3_both_files_atomic_counterexample :
    ¬ (atomicDiscipline save_profiles_ops PROFILE_FILE = true ∧
       atomicDiscipline api_scan_persist_ops CACHE_PATH = true) := by
  decide

/-- C3 amended: the profile document file is persisted via the
write-to-temporary-then-atomic-rename discipline (by save_profiles and by the
rebuild inside load_profiles), but the scan-cache file is persisted by a
single direct in-place write, which does not follow that discipline. -/
theorem c3_persistence_discipline :
    atomicDiscipline save_profiles_ops PROFILE_FILE = true ∧
    atomicDiscipline (load_profiles LoadInput.missing).2 PROFILE_FILE = true ∧
    atomicDiscipline (load_profiles LoadInput.unreadable).2 PROFILE_FILE = true ∧
    api_scan_persist_ops = [FsOp.writeFile CACHE_PATH] ∧
    atomicDiscipline api_scan_persist_ops CACHE_PATH = false := by
  decide

-- ============================================================
-- C6: freshness-checked cache read
-- ============================================================

/-- C6: a cache read with no completed sweep (ts = 0) or a sweep strictly
older than the TTL clears the persisted cache and returns expired with no
devices; otherwise it returns the optionally filtered entries with their
age and performs no write. -/
theorem c6_cache_read_expiry :
    ∀ (cache : CacheDoc) (now : Int) (only_zp2 : Bool),
      (cache.ts = 0 ∨ now - cache.ts > SCAN_CACHE_TTL_SEC →
        api_devices cache now only_zp2 =
          ({ ok := true, age_sec := now - cache.ts, ttl_sec := SCAN_CACHE_TTL_SEC,
             expired := true, devices := [] },
           [(CACHE_PATH, { ts := 0, results := [] })])) ∧
      (¬ (cache.ts = 0 ∨ now - cache.ts > SCAN_CACHE_TTL_SEC) →
        api_devices cache now only_zp2 =
          ({ ok := true, age_sec := now - cache.ts, ttl_sec := SCAN_CACHE_TTL_SEC,
             expired := false,
             devices := if only_zp2 then cache.results.filter (fun r => r.is_zp2)
                        else cache.results },
           [])) := by
  intro cache now only_zp2
  constructor
  · intro h
    simp [api_devices, h]
  · intro h
    simp [api_devices, h]

/-- C6 witness: the expired branch at a never-scanned cache, and the fresh
branch at a recent sweep. -/
theorem c6_cache_read_expiry_witness :
    api_devices { ts := 0, results := [] } 5 true =
      ({ ok := true, age_sec := 5, ttl_sec := SCAN_CACHE_TTL_SEC,
         expired := true, devices := [] },
       [(CACHE_PATH, { ts := 0, results := [] })]) ∧
    api_devices { ts := 3, results := [] } 5 true =
      ({ ok := true, age_sec := 2, ttl_sec := SCAN_CACHE_TTL_SEC,
         expired := false, devices := [] },
       []) := by
  refine ⟨?_, ?_⟩
  · have h := (c6_cache_read_expiry { ts := 0, results := [] } 5 true).1 (Or.inl rfl)
    simpa using h
  · have h := (c6_cache_read_expiry { ts := 3, results := [] } 5 true).2 (by decide)
    simpa using h

-- ============================================================
-- C7: wifi-combo layout
-- ============================================================

/-- C7 counterexample: the claim asserts exactly one 0x00 byte for every pair
of input strings; an ssid containing a NUL character already contributes a
zero byte, so the combo for ssid "\x00" holds two. -/
theorem c7_wifi_combo_counterexample :
    ¬ (List.count 0 (Zp2Profile.encode_wifi_combo "\x00" "") = 1) := by
  decide

/-- C7 amended: the combo always equals utf8(ssid) ++ [0x00] ++ utf8(password)
and carries a 0x00 at index len(utf8(ssid)); when neither input contains a NUL
character that separator is the only 0x00 byte. -/
theorem c7_wifi_combo_layout :
    ∀ (ssid password : String),
      Zp2Profile.encode_wifi_combo ssid password =
        utf8Encode ssid ++ [0] ++ utf8Encode password ∧
      (Zp2Profile.encode_wifi_combo ssid password)[(utf8Encode ssid).length]? = some 0 ∧
      ((∀ c ∈ ssid.data, c.toNat ≠ 0) → (∀ c ∈ password.data, c.toNat ≠ 0) →
        List.count 0 (Zp2Profile.encode_wifi_combo ssid password) = 1) := by
  intro ssid password
  refine ⟨rfl, ?_, ?_⟩
  · show (utf8Encode ssid ++ [0] ++ utf8Encode password)[(utf8Encode ssid).length]? = some 0
    rw [List.append_assoc, List.getElem?_append_right (Nat.le_refl _)]
    simp
  · intro h1 h2
    show List.count 0 (utf8Encode ssid ++ [0] ++ utf8Encode password) = 1
    rw [List.append_assoc, List.count_append]
    have e1 : List.count 0 (utf8Encode ssid) = 0 := count_zero_utf8EncodeChars ssid.data h1
    have e2 : List.count 0 (utf8Encode password) = 0 := count_zero_utf8EncodeChars password.data h2
    rw [e1, List.count_append, e2]
    simp

/-- C7 witness: a NUL-free ssid and password give exactly one separator. -/
theorem c7_wifi_combo_layout_witness :
    List.count 0 (Zp2Profile.encode_wifi_combo "ab" "c") = 1 :=
  (c7_wifi_combo_layout "ab" "c").2.2 (by decide) (by decide)

-- ============================================================
-- C8: mode encode/decode inversion
-- ============================================================

/-- C8: mode encode/decode are exact inverses over {AWS, LOCAL}; encode maps
AWS to "0" and LOCAL to "1"; encode-decode-encode is idempotent for every
input string; and an unknown first byte falls back to the generic text decode
(decode_mode is a total function, so it never raises). -/
theorem c8_mode_roundtrip :
    (∀ m : String, m = "AWS" ∨ m = "LOCAL" →
      Zp2Profile.decode_mode (utf8Encode (Zp2Profile.encode_mode m)) = m) ∧
    Zp2Profile.encode_mode "AWS" = "0" ∧
    Zp2Profile.encode_mode "LOCAL" = "1" ∧
    (∀ m : String,
      Zp2Profile.encode_mode (Zp2Profile.decode_mode (utf8Encode (Zp2Profile.encode_mode m))) =
        Zp2Profile.encode_mode m) ∧
    (∀ raw : List Nat, raw.take 1 ≠ [48] → raw.take 1 ≠ [49] →
      Zp2Profile.decode_mode raw = pyStrip (utf8DecodeReplace raw)) := by
  refine ⟨?_, by decide, by decide, ?_, ?_⟩
  · intro m h
    rcases h with h | h <;> subst h <;> decide
  · intro m
    by_cases h : pyUpper (pyStrip m) = "AWS"
    · have e : Zp2Profile.encode_mode m = "0" := by simp [Zp2Profile.encode_mode, h]
      rw [e]; decide
    · have e : Zp2Profile.encode_mode m = "1" := by simp [Zp2Profile.encode_mode, h]
      rw [e]; decide
  · intro raw h1 h2
    simp [Zp2Profile.decode_mode, h1, h2]

/-- C8 witness: the round trip at AWS and the text fallback at raw byte "2". -/
theorem c8_mode_roundtrip_witness :
    Zp2Profile.decode_mode (utf8Encode (Zp2Profile.encode_mode "AWS")) = "AWS" ∧
    Zp2Profile.decode_mode [50] = pyStrip (utf8DecodeReplace [50]) :=
  ⟨c8_mode_roundtrip.1 "AWS" (Or.inl rfl),
   c8_mode_roundtrip.2.2.2.2 [50] (by decide) (by decide)⟩

-- ============================================================
-- C9: fetch-details decoding vs the codec's decode functions
-- ============================================================

/-- C9 counterexample: on the raw bytes "00" the inline network-mode decoding
of fetch-details yields "00" while the codec's decode_mode yields "AWS", so
the two decodings are not equivalent. -/
theorem c9_fetch_decode_counterexample :
    inline_mode_decode [48, 48] ≠ Zp2Profile.decode_mode [48, 48] := by
  decide

/-- C9 amended: fetch-details decodes the text fields exactly as the codec's
decode_text (the two functions agree on every input), but its network-mode
decoding is not decode_mode: it additionally maps a leading 0x00/0x01 byte to
AWS/LOCAL and compares the whole decoded text (not the first byte) to
"0"/"1", diverging on raw bytes such as "00". -/
theorem c9_fetch_decode_refinement :
    (∀ raw : List Nat, _bytes_to_text raw = Zp2Profile.decode_text raw) ∧
    (∀ rest : List Nat, inline_mode_decode (0 :: rest) = "AWS") ∧
    (∀ rest : List Nat, inline_mode_decode (1 :: rest) = "LOCAL") ∧
    inline_mode_decode [48, 48] = "00" ∧
    Zp2Profile.decode_mode [48, 48] = "AWS" := by
  refine ⟨fun _ => rfl, ?_, ?_, by decide, by decide⟩
  · intro rest
    simp [inline_mode_decode]
  · intro rest
    simp [inline_mode_decode]

-- ============================================================
-- C10: send-command validation and payload
-- ============================================================

/-- Every characteristic write in a trace carries exactly this payload. -/
def writesOnly (payload : List Nat) (op : BleOp) : Bool :=
  match op with
  | BleOp.writeChar _ _ d => d == payload
  | _ => true

/-- Each per-target command body only ever writes the precomputed payload. -/
theorem sendOne_writesOnly (zp2 : Codec) (cache : List (String × String))
    (env : BleEnv) (payload : List Nat) (address : String) :
    (sendOne zp2 cache env payload address).2.all (writesOnly payload) = true := by
  unfold sendOne
  by_cases hc : env.connectOk address
  · rw [if_pos hc]
    cases hp : get_profile_by_adv_name zp2 (some (find_adv_name_in_cache cache address)) with
    | none => simp only [hp] ; simp [writesOnly]
    | some p =>
      cases hs : p.SVC_WIFI_CFG with
      | none => simp only [hp, hs] ; simp [writesOnly]
      | some svc =>
        cases hch : p.CH_COMMAND with
        | none => simp only [hp, hs, hch] ; simp [writesOnly]
        | some ch => simp only [hp, hs, hch] ; simp [writesOnly]
  · rw [if_neg hc]
    simp [writesOnly]

/-- C10: a command that does not normalise (trim + lower-case) to "reset" or
"reboot" makes the whole operation fail with the single "invalid command"
error before any target is attempted (no transport operation happens);
otherwise every byte string written to the command endpoint is the UTF-8
encoding of the normalised, lower-cased command — not the identity
pass-through encode_command would give, as the " RESET " example shows. -/
theorem c10_send_command :
    ∀ (zp2 : Codec) (cache : List (String × String)) (env : BleEnv)
      (targets : List String) (command : String),
      (¬ (pyLower (pyStrip command) = "reset" ∨ pyLower (pyStrip command) = "reboot") →
        api_send_command zp2 cache env targets command =
          (CmdResp.errResp "invalid command", [])) ∧
      ((api_send_command zp2 cache env targets command).2.all
        (writesOnly (utf8Encode (pyLower (pyStrip command)))) = true) ∧
      Zp2Profile.encode_command " RESET " = "RESET" ∧
      pyLower (pyStrip " RESET ") = "reset" := by
  intro zp2 cache env targets command
  refine ⟨?_, ?_, by decide, by decide⟩
  · intro h
    rw [not_or] at h
    simp [api_send_command, h.1, h.2]
  · by_cases hv : pyLower (pyStrip command) ≠ "reset" ∧ pyLower (pyStrip command) ≠ "reboot"
    · simp [api_send_command, hv]
    · by_cases ht : targets = []
      · simp [api_send_command, hv, ht]
      · have : api_send_command zp2 cache env targets command =
            (CmdResp.okResp (pyLower (pyStrip command))
               ((targets.map (sendOne zp2 cache env (utf8Encode (pyLower (pyStrip command))))).map Prod.fst),
             ((targets.map (sendOne zp2 cache env (utf8Encode (pyLower (pyStrip command))))).map Prod.snd).flatten) := by
          simp [api_send_command, hv, ht]
        rw [this]
        rw [List.all_eq_true]
        intro op hop
        rw [List.mem_flatten] at hop
        obtain ⟨l, hl, hopl⟩ := hop
        rw [List.mem_map] at hl
        obtain ⟨pr, hpr, rfl⟩ := hl
        rw [List.mem_map] at hpr
        obtain ⟨addr, haddr, rfl⟩ := hpr
        have := sendOne_writesOnly zp2 cache env (utf8Encode (pyLower (pyStrip command))) addr
        rw [List.all_eq_true] at this
        exact this op hopl

/-- C10 witness: the invalid command "foo" is rejected with no transport
activity; a valid batch only writes the lower-cased payload bytes. -/
theorem c10_send_command_witness :
    api_send_command zp2CodecSpec [] envAll ["AA"] "foo" =
      (CmdResp.errResp "invalid command", []) ∧
    (api_send_command zp2CodecSpec [("AA", "ZP2-1")] envAll ["AA"] " RESET ").2.all
      (writesOnly (utf8Encode (pyLower (pyStrip " RESET ")))) = true :=
  ⟨(c10_send_command zp2CodecSpec [] envAll ["AA"] "foo").1 (by decide),
   (c10_send_command zp2CodecSpec [("AA", "ZP2-1")] envAll ["AA"] " RESET ").2.1⟩

-- ============================================================
-- C1: the registry's codec surface does not match the pipeline
-- ============================================================

/-- Did api_write_profile return the success-shaped response dict. -/
def isOkWrite : WriteOutcome → Bool
  | WriteOutcome.resp (WriteResp.okResp _ _ _ _) => true
  | _ => false

/-- Every per-target record of a command response reports failure (vacuously
true for a top-level error response). -/
def cmdAllFailed : CmdResp → Bool
  | CmdResp.okResp _ items => items.all (fun i => !i.ok)
  | CmdResp.errResp _ => true

/-- With the active Zp2Profile codec, each fetch-details target fails before
any characteristic read, and no endpoint read or write happens. -/
theorem fetchOne_active (cache : List (String × String)) (env : BleEnv) (address : String) :
    (fetchOne zp2ProfileActive cache env address).1.ok = false ∧
    (fetchOne zp2ProfileActive cache env address).2.all (fun op => !op.isGattRW) = true := by
  unfold fetchOne
  cases hp : get_profile_by_adv_name zp2ProfileActive (some (find_adv_name_in_cache cache address)) with
  | none => simp only [hp] ; simp
  | some p =>
    have hpz := get_profile_eq hp
    subst hpz
    by_cases hc : env.connectOk address
    · simp only [hp, hc]
      simp [readSeq, zp2ProfileActive, BleOp.isGattRW]
    · simp only [hp, hc]
      simp [BleOp.isGattRW]

/-- With the active Zp2Profile codec, the write-profile loop assigns no
payload locals and performs no transport operation, ending in the unhandled
local-variable error. -/
theorem writeLoop_active (cache : List (String × String)) (env : BleEnv)
    (mode ssid password mqtt_in pid : String) :
    ∀ (targets : List String) (acc : List WriteItem),
      writeLoop zp2ProfileActive cache env mode ssid password mqtt_in pid targets acc none =
        (WriteOutcome.nameError "mode_text", []) := by
  intro targets
  induction targets with
  | nil => intro acc ; rfl
  | cons a rest ih =>
    intro acc
    unfold writeLoop
    cases hp : get_profile_by_adv_name zp2ProfileActive (some (find_adv_name_in_cache cache a)) with
    | none =>
      simp only [hp]
      exact ih _
    | some p =>
      have hpz := get_profile_eq hp
      subst hpz
      simp only [hp]
      exact ih _

/-- With the active Zp2Profile codec, each send-command target fails and no
endpoint write happens. -/
theorem sendOne_active (cache : List (String × String)) (env : BleEnv)
    (payload : List Nat) (address : String) :
    (sendOne zp2ProfileActive cache env payload address).1.ok = false ∧
    (sendOne zp2ProfileActive cache env payload address).2.all (fun op => !op.isGattRW) = true := by
  unfold sendOne
  by_cases hc : env.connectOk address
  · rw [if_pos hc]
    cases hp : get_profile_by_adv_name zp2ProfileActive (some (find_adv_name_in_cache cache address)) with
    | none => simp only [hp] ; simp [BleOp.isGattRW]
    | some p =>
      have hpz := get_profile_eq hp
      subst hpz
      simp only [hp]
      simp [zp2ProfileActive, BleOp.isGattRW]
  · rw [if_neg hc]
    simp [BleOp.isGattRW]

/-- C1: the active zp2_profile.py never binds the PROFILE name the registry
imports, and the active Zp2Profile codec provides none of the attributes the
pipeline accesses (SVC_*, CH_*, build_mqtt_text); consequently, against the
active codec surface, every fetch-details target fails with no endpoint read
or write performed, every write-profile call performs no transport operation
and never returns the success response, and every send-command target fails
with no endpoint write performed. -/
theorem c1_codec_surface_mismatch :
    ("PROFILE" ∉ zp2ModuleTopLevelNames) ∧
    (pipelineCodecAccesses.all (fun a => !(zp2ProfileMembers.contains a)) = true) ∧
    (∀ (cache : List (String × String)) (env : BleEnv) (targets : List String),
      ((api_fetch_details zp2ProfileActive cache env targets).1.results.all
        (fun i => !i.ok) = true) ∧
      ((api_fetch_details zp2ProfileActive cache env targets).2.all
        (fun op => !op.isGattRW) = true)) ∧
    (∀ (cache : List (String × String)) (env : BleEnv) (doc : Doc)
       (targets : List String) (pid : String),
      isOkWrite (api_write_profile zp2ProfileActive cache env doc targets pid).1 = false ∧
      (api_write_profile zp2ProfileActive cache env doc targets pid).2 = []) ∧
    (∀ (cache : List (String × String)) (env : BleEnv) (targets : List String)
       (command : String),
      cmdAllFailed (api_send_command zp2ProfileActive cache env targets command).1 = true ∧
      ((api_send_command zp2ProfileActive cache env targets command).2.all
        (fun op => !op.isGattRW) = true)) := by
  refine ⟨by decide, by decide, ?_, ?_, ?_⟩
  · intro cache env targets
    constructor
    · rw [List.all_eq_true]
      intro i hi
      simp only [api_fetch_details, List.map_map] at hi
      rw [List.mem_map] at hi
      obtain ⟨addr, _, rfl⟩ := hi
      have := (fetchOne_active cache env addr).1
      simpa using this
    · rw [List.all_eq_true]
      intro op hop
      simp only [api_fetch_details] at hop
      rw [List.mem_flatten] at hop
      obtain ⟨l, hl, hopl⟩ := hop
      rw [List.mem_map] at hl
      obtain ⟨pr, hpr, rfl⟩ := hl
      rw [List.mem_map] at hpr
      obtain ⟨addr, _, rfl⟩ := hpr
      have := (fetchOne_active cache env addr).2
      rw [List.all_eq_true] at this
      exact this op hopl
  · intro cache env doc targets pid
    unfold api_write_profile
    by_cases ht : targets = []
    · simp [ht, isOkWrite]
    · by_cases hpid : pyStrip pid = ""
      · simp [ht, hpid, isOkWrite]
      · cases hf : doc.profiles.find? (fun p => p.id == pyStrip pid) with
        | none => simp [ht, hpid, hf, isOkWrite]
        | some up =>
          simp only [ht, hpid, hf, if_neg]
          rw [writeLoop_active]
          simp [isOkWrite]
  · intro cache env targets command
    unfold api_send_command
    by_cases hv : pyLower (pyStrip command) ≠ "reset" ∧ pyLower (pyStrip command) ≠ "reboot"
    · simp [hv, cmdAllFailed]
    · by_cases ht : targets = []
      · simp [hv, ht, cmdAllFailed]
      · simp only [hv, ht, if_neg, if_false]
        constructor
        · simp only [cmdAllFailed]
          rw [List.all_eq_true]
          intro i hi
          simp only [List.map_map] at hi
          rw [List.mem_map] at hi
          obtain ⟨addr, _, rfl⟩ := hi
          have := (sendOne_active cache env (utf8Encode (pyLower (pyStrip command))) addr).1
          simpa using this
        · rw [List.all_eq_true]
          intro op hop
          rw [List.mem_flatten] at hop
          obtain ⟨l, hl, hopl⟩ := hop
          rw [List.mem_map] at hl
          obtain ⟨pr, hpr, rfl⟩ := hl
          rw [List.mem_map] at hpr
          obtain ⟨addr, _, rfl⟩ := hpr
          have := (sendOne_active cache env (utf8Encode (pyLower (pyStrip command))) addr).2
          rw [List.all_eq_true] at this
          exact this op hopl

-- ============================================================
-- C2: write-profile batch with a blank MQTT field
-- ============================================================

/-- With a resolvable codec whose mqtt builder maps "" to "" (zp2CodecSpec),
a blank-MQTT run of the write loop performs no transport operation; it
returns the single top-level failure at the first target whose codec
resolves, and ends in the unhandled local-variable error when no target's
codec resolves. -/
theorem writeLoop_blank_mqtt (cache : List (String × String)) (env : BleEnv)
    (mode ssid password pid : String) :
    ∀ (targets : List String) (acc : List WriteItem),
      writeLoop zp2CodecSpec cache env mode ssid password "" pid targets acc none =
        (if targets.any (fun a =>
            (get_profile_by_adv_name zp2CodecSpec (some (find_adv_name_in_cache cache a))).isSome)
         then WriteOutcome.resp (WriteResp.errResp "profile.mqtt is empty")
         else WriteOutcome.nameError "mode_text",
         []) := by
  intro targets
  induction targets with
  | nil => intro acc ; rfl
  | cons a rest ih =>
    intro acc
    unfold writeLoop
    cases hp : get_profile_by_adv_name zp2CodecSpec (some (find_adv_name_in_cache cache a)) with
    | none =>
      simp only [hp, List.any_cons, Option.isSome_none, Bool.false_or]
      exact ih _
    | some p =>
      have hpz := get_profile_eq hp
      subst hpz
      have hb : Zp2Profile.encode_mqtt "" = "" := by decide
      simp only [hp, List.any_cons, Option.isSome_some, Bool.true_or, if_true]
      simp [zp2CodecSpec, hb]

/-- C2 amended: for every write-profile batch whose loaded profile has a
blank MQTT field, no transport operation is performed (no device is ever
contacted); but the blank-MQTT check runs per target, after that target's
codec resolution, not before any target is processed: the call returns the
single top-level failure (with no per-target results) at the first target
whose codec resolves, and when no target's codec resolves it ends in an
unhandled local-variable error instead of reporting the failure. -/
theorem c2_blank_mqtt_batch :
    ∀ (cache : List (String × String)) (env : BleEnv) (doc : Doc)
      (targets : List String) (profile_id : String) (up : StoreProfile),
      targets ≠ [] →
      pyStrip profile_id ≠ "" →
      doc.profiles.find? (fun p => p.id == pyStrip profile_id) = some up →
      pyStrip up.mqtt = "" →
      api_write_profile zp2CodecSpec cache env doc targets profile_id =
        (if targets.any (fun a =>
            (get_profile_by_adv_name zp2CodecSpec (some (find_adv_name_in_cache cache a))).isSome)
         then WriteOutcome.resp (WriteResp.errResp "profile.mqtt is empty")
         else WriteOutcome.nameError "mode_text",
         []) := by
  intro cache env doc targets pid up h1 h2 h3 h4
  simp only [api_write_profile]
  rw [if_neg h1, if_neg h2]
  simp only [h3, h4]
  exact writeLoop_blank_mqtt cache env _ _ _ _ targets []

/-- A stored profile whose MQTT field is blank, and the document holding it. -/
def profBlank : StoreProfile :=
  { id := "p1", name := "n", mode := "LOCAL", ssid := "s", password := "w",
    mqtt := "", updated_at := 1 }

def docBlank : Doc :=
  { schema := 1, current_profile_id := "p1", profiles := [profBlank] }

/-- C2 witness: two targets, the first unresolved and the second resolving;
the blank-MQTT failure is returned and no transport operation happened. -/
theorem c2_blank_mqtt_batch_witness :
    api_write_profile zp2CodecSpec [("BB", "ZP2-1")] envAll docBlank ["AA", "BB"] "p1" =
      (WriteOutcome.resp (WriteResp.errResp "profile.mqtt is empty"), []) := by
  have h := c2_blank_mqtt_batch [("BB", "ZP2-1")] envAll docBlank ["AA", "BB"] "p1"
    profBlank (by decide) (by decide) (by decide) (by decide)
  rw [h]
  decide

/-- C2 counterexample: a blank-MQTT batch whose only target has no resolvable
codec does not report the claimed single top-level failure at all — the call
ends in an unhandled local-variable error (and a per-target attempt was
recorded before that), contradicting the claim that the check happens before
any target is processed regardless of codec resolution. -/
theorem c2_blank_mqtt_batch_counterexample :
    (api_write_profile zp2CodecSpec [] envAll docBlank ["AA"] "p1").1 =
      WriteOutcome.nameError "mode_text" ∧
    (api_write_profile zp2CodecSpec [] envAll docBlank ["AA"] "p1").1 ≠
      WriteOutcome.resp (WriteResp.errResp "profile.mqtt is empty") := by
  constructor
  · decide
  · decide

-- ============================================================
-- C4: scan ranking
-- ============================================================

theorem mem_stableInsert (le : α → α → Bool) (x a : α) :
    ∀ l : List α, a ∈ stableInsert le x l ↔ a = x ∨ a ∈ l := by
  intro l
  induction l with
  | nil => simp [stableInsert]
  | cons y ys ih =>
    unfold stableInsert
    by_cases h : le y x = true
    · rw [if_pos h]
      simp only [List.mem_cons, ih]
      tauto
    · rw [if_neg h]
      simp only [List.mem_cons]

theorem stableInsert_pairwise (le : α → α → Bool)
    (htrans : ∀ a b c, le a b = true → le b c = true → le a c = true)
    (htotal : ∀ a b, le a b = true ∨ le b a = true)
    (x : α) :
    ∀ l : List α, l.Pairwise (fun a b => le a b = true) →
      (stableInsert le x l).Pairwise (fun a b => le a b = true) := by
  intro l
  induction l with
  | nil => intro _ ; simp [stableInsert]
  | cons y ys ih =>
    intro hx
    rw [List.pairwise_cons] at hx
    obtain ⟨hy, hys⟩ := hx
    unfold stableInsert
    by_cases h : le y x = true
    · rw [if_pos h]
      rw [List.pairwise_cons]
      refine ⟨?_, ih hys⟩
      intro b hb
      rw [mem_stableInsert] at hb
      rcases hb with rfl | hb
      · exact h
      · exact hy b hb
    · rw [if_neg h]
      have hxy : le x y = true := by
        rcases htotal x y with h1 | h1
        · exact h1
        · exact absurd h1 h
      rw [List.pairwise_cons]
      refine ⟨?_, List.pairwise_cons.mpr ⟨hy, hys⟩⟩
      intro b hb
      rcases List.mem_cons.mp hb with rfl | hb
      · exact hxy
      · exact htrans x y b hxy (hy b hb)

theorem stableSort_pairwise (le : α → α → Bool)
    (htrans : ∀ a b c, le a b = true → le b c = true → le a c = true)
    (htotal : ∀ a b, le a b = true ∨ le b a = true) :
    ∀ l : List α, (stableSort le l).Pairwise (fun a b => le a b = true) := by
  intro l
  induction l with
  | nil => simp [stableSort]
  | cons x xs ih => exact stableInsert_pairwise le htrans htotal x _ ih

theorem stableInsert_perm (le : α → α → Bool) (x : α) :
    ∀ l : List α, (stableInsert le x l).Perm (x :: l) := by
  intro l
  induction l with
  | nil => simp [stableInsert]
  | cons y ys ih =>
    unfold stableInsert
    by_cases h : le y x = true
    · rw [if_pos h]
      exact (ih.cons y).trans (List.Perm.swap x y ys)
    · rw [if_neg h]

theorem stableSort_perm (le : α → α → Bool) :
    ∀ l : List α, (stableSort le l).Perm l := by
  intro l
  induction l with
  | nil => simp [stableSort]
  | cons x xs ih => exact (stableInsert_perm le x _).trans (ih.cons x)

theorem scanSortLe_total (a b : ScanItem) :
    scanSortLe a b = true ∨ scanSortLe b a = true := by
  unfold scanSortLe
  cases ha : a.is_zp2 <;> cases hb : b.is_zp2 <;> simp [ha, hb] <;> omega

theorem scanSortLe_trans (a b c : ScanItem)
    (h1 : scanSortLe a b = true) (h2 : scanSortLe b c = true) :
    scanSortLe a c = true := by
  unfold scanSortLe at h1 h2 ⊢
  cases ha : a.is_zp2 <;> cases hb : b.is_zp2 <;> cases hc : c.is_zp2 <;>
    simp [ha, hb, hc] at h1 h2 ⊢ <;> omega

/-- C4 amended: do_scan produces a permutation of the classified entries
ordered by the key (not is_zp2, -rssi_sort): every entry flagged by the legacy
ZP2-substring heuristic (is_zp2) precedes every entry that is not, and within
each heuristic group signal strength descends, with a missing reading valued
-999 (the original claim stated the partition in terms of the supported flag,
which the sort key does not consult). -/
theorem c4_scan_ranking :
    ∀ devices : List BleDevice,
      (do_scan devices).Perm (devices.map scanItemOf) ∧
      (do_scan devices).Pairwise (fun a b =>
        (a.is_zp2 = false → b.is_zp2 = false) ∧
        (a.is_zp2 = b.is_zp2 → rssi_sort b ≤ rssi_sort a)) := by
  intro devices
  refine ⟨stableSort_perm _ _, ?_⟩
  have h := stableSort_pairwise scanSortLe scanSortLe_trans scanSortLe_total
    (devices.map scanItemOf)
  refine h.imp ?_
  intro a b hab
  unfold scanSortLe at hab
  cases ha : a.is_zp2 <;> cases hb : b.is_zp2 <;> simp [ha, hb] at hab ⊢ <;> omega

/-- A device whose resolved name lacks "ZP2" (unsupported) but whose Alias
matches the legacy heuristic, with a stronger signal. -/
def devAliasOnly : BleDevice :=
  { address := some "B", name := none,
    details := some { Name := some "FOO", Alias := some "ZP2X", RSSI := some (-40) } }

/-- A genuinely supported device with a weaker signal. -/
def devSupported : BleDevice :=
  { address := some "G", name := some "ZP2-A",
    details := some { RSSI := some (-50) } }

/-- Does every supported entry precede every unsupported entry. -/
def supportedFirst : List ScanItem → Bool
  | [] => true
  | x :: xs => if x.is_supported then supportedFirst xs else xs.all (fun y => !y.is_supported)

/-- C4 counterexample: the sort key uses the legacy is_zp2 heuristic, not the
supported flag; a device whose Alias contains "ZP2" but whose resolved name
does not is unsupported yet ranks above a genuinely supported device, so
supported entries do not all precede unsupported ones. -/
theorem c4_scan_ranking_counterexample :
    supportedFirst (do_scan [devSupported, devAliasOnly]) = false := by
  decide

-- ============================================================
-- C5: profile-store selection invariant
-- ============================================================

theorem replaceFirstById_any (pid : String) (p2 : StoreProfile) (hp : p2.id = pid) :
    ∀ l : List StoreProfile, l.any (fun x => x.id == pid) = true →
      (replaceFirstById pid p2 l).any (fun x => x.id == pid) = true := by
  intro l
  induction l with
  | nil => intro h ; exact h
  | cons x xs ih =>
    intro h
    unfold replaceFirstById
    by_cases hx : x.id = pid
    · rw [if_pos hx]
      simp [List.any_cons, hp]
    · rw [if_neg hx]
      rw [List.any_cons] at h ⊢
      have hxb : (x.id == pid) = false := beq_eq_false_iff_ne.mpr hx
      rw [hxb] at h ⊢
      rw [Bool.false_or] at h ⊢
      exact ih h

/-- C5 amended: upsert establishes the selection invariant unconditionally
(and leaves the document untouched on a rejected empty id); delete clears the
selection when it pointed at the removed id and preserves the invariant;
set_current preserves the invariant; load establishes it when it rebuilds the
default document (missing, unreadable or non-dict file), but a well-formed
stored dict is returned without cross-field validation, so load does not by
itself establish the invariant. -/
theorem c5_store_invariant :
    (∀ (now : Int) (doc : Doc) (raw : RawProfile) (ow : Option String),
      ((upsert_profile now doc raw ow).1.1 = true →
        invariantB (upsert_profile now doc raw ow).2 = true) ∧
      ((upsert_profile now doc raw ow).1.1 = false →
        (upsert_profile now doc raw ow).2 = doc)) ∧
    (∀ (doc : Doc) (pid : String), invariantB doc = true →
      invariantB (delete_profile doc pid).2 = true) ∧
    (∀ (doc : Doc) (pid : String),
      pyStrip pid ≠ "" → doc.current_profile_id = pyStrip pid →
      (delete_profile doc pid).2.current_profile_id = "") ∧
    (∀ (doc : Doc) (pid : String), invariantB doc = true →
      invariantB (set_current_profile doc pid).2 = true) ∧
    invariantB (load_profiles LoadInput.missing).1 = true ∧
    invariantB (load_profiles LoadInput.unreadable).1 = true ∧
    invariantB (load_profiles LoadInput.nonDict).1 = true ∧
    (∀ (sch : Option Int) (cur : String) (profs : List StoreProfile),
      (load_profiles (LoadInput.dict sch (some cur) (some (ProfilesField.isList profs)))).1 =
        { schema := sch.getD 1, current_profile_id := cur, profiles := profs }) := by
  refine ⟨?_, ?_, ?_, ?_, by decide, by decide, by decide, fun sch cur profs => rfl⟩
  · intro now doc raw ow
    simp only [upsert_profile]
    by_cases hpid : pyStrip (getOrDefault ow (normalize_profile now raw).id) = ""
    · rw [if_pos hpid]
      exact ⟨fun h => by simp at h, fun _ => rfl⟩
    · rw [if_neg hpid]
      refine ⟨fun _ => ?_, fun h => by simp at h⟩
      have hne : (pyStrip (getOrDefault ow (normalize_profile now raw).id) == "") = false :=
        beq_eq_false_iff_ne.mpr hpid
      by_cases hany : doc.profiles.any
          (fun x => x.id == pyStrip (getOrDefault ow (normalize_profile now raw).id)) = true
      · have h2 := replaceFirstById_any
          (pyStrip (getOrDefault ow (normalize_profile now raw).id))
          { normalize_profile now raw with
              id := pyStrip (getOrDefault ow (normalize_profile now raw).id),
              updated_at := now }
          rfl doc.profiles hany
        simp [invariantB, hany, hne, h2]
      · rw [Bool.not_eq_true] at hany
        simp [invariantB, hany, hne, List.any_append]
  · intro doc pid hinv
    unfold delete_profile
    by_cases hp : pyStrip pid = ""
    · rw [if_pos hp]
      exact hinv
    · rw [if_neg hp]
      by_cases hcur : doc.current_profile_id = pyStrip pid
      · simp [invariantB, hcur]
      · unfold invariantB at hinv
        rw [Bool.or_eq_true] at hinv
        rcases hinv with h1 | h1
        · simp [invariantB, hcur, h1]
        · rw [List.any_eq_true] at h1
          obtain ⟨q, hq, hqid⟩ := h1
          have hqeq : q.id = doc.current_profile_id := by
            exact eq_of_beq hqid
          have hql : q ∈ doc.profiles.filter (fun r => !(r.id == pyStrip pid)) := by
            rw [List.mem_filter]
            refine ⟨hq, ?_⟩
            have : (q.id == pyStrip pid) = false := by
              apply beq_eq_false_iff_ne.mpr
              rw [hqeq]
              exact hcur
            simp [this]
          have hfany : (doc.profiles.filter (fun r => !(r.id == pyStrip pid))).any
              (fun x => x.id == doc.current_profile_id) = true :=
            List.any_eq_true.mpr ⟨q, hql, hqid⟩
          simp [invariantB, hcur, hfany]
  · intro doc pid hne hcur
    unfold delete_profile
    rw [if_neg hne]
    simp [hcur]
  · intro doc pid hinv
    unfold set_current_profile
    by_cases hp : pyStrip pid = ""
    · simp [hp, invariantB]
    · by_cases hex : doc.profiles.any (fun p => p.id == pyStrip pid) = true
      · simp [hp, hex, invariantB]
      · rw [Bool.not_eq_true] at hex
        simp [hp, hex]
        exact hinv

/-- C5 witness: the invariant holds after a fresh upsert; deleting the
selected profile clears and preserves; selecting an existing profile
preserves. -/
theorem c5_store_invariant_witness :
    invariantB (upsert_profile 5 default_doc { id := some "a" } none).2 = true ∧
    invariantB (delete_profile docBlank "p1").2 = true ∧
    (delete_profile docBlank "p1").2.current_profile_id = "" ∧
    invariantB (set_current_profile docBlank "p1").2 = true :=
  ⟨(c5_store_invariant.1 5 default_doc { id := some "a" } none).1 (by decide),
   c5_store_invariant.2.1 docBlank "p1" (by decide),
   c5_store_invariant.2.2.1 docBlank "p1" (by decide) (by decide),
   c5_store_invariant.2.2.2.1 docBlank "p1" (by decide)⟩

/-- C5 counterexample: load performs no cross-field validation, so loading a
well-formed file whose current_profile_id names no stored profile returns a
document violating the claimed invariant. -/
theorem c5_store_invariant_counterexample :
    invariantB (load_profiles
      (LoadInput.dict (some 1) (some "X") (some (ProfilesField.isList [])))).1 = false := by
  decide
